import Mathlib

/-!
Shallow embedding of `src/Backend/main.py` (Turkey agricultural land
suitability API) and proofs about its scoring pipeline.

Modelling conventions, used throughout:
* Python floats are modelled as exact rationals (`ℚ`); integer scores as `ℕ`.
* `np.random.uniform(lo, hi)` draws and the floating-point `np.sqrt` are
  modelled by oracle functions bundled in `Samplers`; every theorem below
  holds for an arbitrary oracle, hence for every realisation of the
  randomness.
* The nearest-water loop compares distances `sqrt(dx^2+dy^2)*111`; since
  `x ↦ Real.sqrt x * 111` is strictly monotone on nonnegatives, the loop is
  embedded comparing squared degree distances (`ℚ`, computable), and the
  order-equivalence with the real distances is proved (`sqrt111_le_of_le` /
  `sqrt111_lt_of_lt` below) and used to state minimality in terms of the
  actual `Real.sqrt` distances.
* Presentation-only strings (the f-string detail fragments, the
  `", ".join` of the reason list, the `visual_output` block and
  `processing_time`) are not modelled; the reason keywords appended by the
  scorer are kept as a `List String`.
-/

/-! ## String helpers: Python `str.lower()` and the `keyword in s` substring test -/

/-- Model of Python `str.lower()` on the ASCII strings used by the program. -/
def lowerStr (s : String) : String :=
  String.mk (s.data.map Char.toLower)

/-- Does the character list start with `sub`? (helper for the substring test). -/
def charsLeads : List Char → List Char → Bool
  | [], _ => true
  | _ :: _, [] => false
  | a :: as, b :: bs => a == b && charsLeads as bs

/-- Does the character list contain `sub` as a contiguous run?
Model of Python `sub in s`. -/
def charsHasSub (sub : List Char) : List Char → Bool
  | [] => charsLeads sub []
  | b :: bs => charsLeads sub (b :: bs) || charsHasSub sub bs

/-- Python `sub in s` for strings. -/
def strContainsSub (s sub : String) : Bool :=
  charsHasSub sub.data s.data

/-! ## Suitability scorer (`calculate_comprehensive_suitability`, main.py:248-320)

The Python function accumulates `score += k` and `reasons.append(r)` through
seven independent if/elif criteria over a row dict; it is embedded as the sum
(resp. concatenation) of seven per-criterion contributions, each an if/elif
expression translated verbatim.  The per-criterion detail strings
(`details.append(f"💧 Water: ...")`) are presentation only and not modelled. -/

/-- The fields of the enriched row that `calculate_comprehensive_suitability`
reads to compute the score (the remaining row fields feed only the
presentation strings). -/
structure ScoreRow where
  water_distance_km : ℚ
  slope_percent : ℚ
  elevation_m : ℚ
  soil_productivity : String
  annual_precipitation_mm : ℚ
  sunshine_hours : ℚ
  landcover_type : String

/-- WATER criterion: `<=5` gives 25 ("very close to water"), `<=10` gives 18. -/
def waterPart (d : ℚ) : ℕ × List String :=
  if d ≤ 5 then (25, ["very close to water"])
  else if d ≤ 10 then (18, ["close to water"])
  else (0, [])

/-- SLOPE criterion: `<=5` gives 20, `<=10` gives 15. -/
def slopePart (s : ℚ) : ℕ × List String :=
  if s ≤ 5 then (20, ["low slope"])
  else if s ≤ 10 then (15, ["medium slope"])
  else (0, [])

/-- ELEVATION criterion: `<=800` gives 15, `<=1500` gives 10. -/
def elevationPart (e : ℚ) : ℕ × List String :=
  if e ≤ 800 then (15, ["low elevation"])
  else if e ≤ 1500 then (10, ["medium elevation"])
  else (0, [])

/-- SOIL criterion: `"high"` gives 10, `"medium-high"` gives 7. -/
def soilPart (q : String) : ℕ × List String :=
  if q = "high" then (10, ["fertile soil"])
  else if q = "medium-high" then (7, ["good soil"])
  else (0, [])

/-- CLIMATE criterion: precipitation in `[400, 800]` gives 8. -/
def precipitationPart (p : ℚ) : ℕ × List String :=
  if 400 ≤ p ∧ p ≤ 800 then (8, ["ideal precipitation"])
  else (0, [])

/-- SUNSHINE criterion: sunshine hours in `[1800, 2800]` gives 7. -/
def sunshinePart (s : ℚ) : ℕ × List String :=
  if 1800 ≤ s ∧ s ≤ 2800 then (7, ["ideal sunshine"])
  else (0, [])

/-- LANDCOVER BONUS: 8 points when the lowercased label contains one of
`farm`, `agricultural`, `orchard`, `vineyard` as a substring. -/
def landPart (lcRaw : String) : ℕ × List String :=
  let lc := lowerStr lcRaw
  if (["farm", "agricultural", "orchard", "vineyard"].any
        fun keyword => strContainsSub lc keyword) then
    (8, ["existing agricultural land"])
  else (0, [])

/-- Embedding of `calculate_comprehensive_suitability` (main.py:248-320): total score and
reason keywords, the sum/concatenation of the seven criterion contributions. -/
def calculate_comprehensive_suitability (row : ScoreRow) : ℕ × List String :=
  let w := waterPart row.water_distance_km
  let s := slopePart row.slope_percent
  let e := elevationPart row.elevation_m
  let so := soilPart row.soil_productivity
  let p := precipitationPart row.annual_precipitation_mm
  let su := sunshinePart row.sunshine_hours
  let l := landPart row.landcover_type
  (w.1 + s.1 + e.1 + so.1 + p.1 + su.1 + l.1,
   w.2 ++ s.2 ++ e.2 ++ so.2 ++ p.2 ++ su.2 ++ l.2)

/-- Embedding of `categorize_suitability` (main.py:351-359). -/
def categorize_suitability (score : ℕ) : String :=
  if score ≥ 80 then "HIGHLY PRODUCTIVE"
  else if score ≥ 70 then "PRODUCTIVE"
  else if score ≥ 60 then "MODERATELY PRODUCTIVE"
  else "LOW PRODUCTIVITY"

/-- Order of the four category labels, used to state monotonicity of
`categorize_suitability` (better categories rank higher). -/
def categoryRank (c : String) : ℕ :=
  if c = "HIGHLY PRODUCTIVE" then 3
  else if c = "PRODUCTIVE" then 2
  else if c = "MODERATELY PRODUCTIVE" then 1
  else 0

/-! ## Water features and the nearest-water loop (main.py:166-181)

`calculate_distance_to_nearest_water` scans the collection keeping the
feature with the smallest `sqrt((lat-w.lat)^2+(lon-w.lon)^2)*111`, starting
from `min_distance = inf` and the placeholder
`{"name": "unknown", "type": "unknown", "distance_km": 0}`.  The embedding
tracks the squared degree distance (a rational) instead of the float
distance; `x ↦ Real.sqrt x * 111` being strictly monotone on nonnegatives,
the comparisons agree, and `min_distance = inf` before the first element is
the `Option.none` state of the accumulator. -/

/-- A water feature as produced by the catalog loader (main.py:140-146). -/
structure WaterFeature where
  lat : ℚ
  lon : ℚ
  name : String
  type : String
  source : String
deriving DecidableEq, Repr

/-- Squared distance in degrees between a point and a feature;
the distance in the code is `Real.sqrt` of this, times 111. -/
def sqDistDeg (lat lon : ℚ) (w : WaterFeature) : ℚ :=
  (lat - w.lat) ^ 2 + (lon - w.lon) ^ 2

/-- Result of the nearest-water scan.  `distSqDeg` is the squared degree
distance to the chosen feature; the `distance_km` field of the code is
`Real.sqrt distSqDeg * 111` (and the placeholder literal `0` equals
`Real.sqrt 0 * 111`). -/
structure NearestWater where
  name : String
  wtype : String
  distSqDeg : ℚ
deriving DecidableEq, Repr

/-- The scan loop of `calculate_distance_to_nearest_water`: `none` is the
initial state where `min_distance` is infinite (any distance beats it). -/
def nearestGo (lat lon : ℚ) : List WaterFeature → Option ℚ → NearestWater → NearestWater
  | [], _, best => best
  | w :: rest, none, _ =>
      nearestGo lat lon rest (some (sqDistDeg lat lon w))
        ⟨w.name, w.type, sqDistDeg lat lon w⟩
  | w :: rest, some m, best =>
      if sqDistDeg lat lon w < m then
        nearestGo lat lon rest (some (sqDistDeg lat lon w))
          ⟨w.name, w.type, sqDistDeg lat lon w⟩
      else
        nearestGo lat lon rest (some m) best

/-- Embedding of `calculate_distance_to_nearest_water` (main.py:166-181). -/
def calculate_distance_to_nearest_water (lat lon : ℚ)
    (water_sources : List WaterFeature) : NearestWater :=
  nearestGo lat lon water_sources none ⟨"unknown", "unknown", 0⟩

/-! ## Attribute estimators (main.py:184-348) -/

/-- Oracles for the numeric non-determinism of the program: `uniform lo hi`
models one `np.random.uniform(lo, hi)` draw, `sqrtA` models the
floating-point `np.sqrt`.  Theorems quantify over the oracle, hence hold
for every realisation of the randomness. -/
structure Samplers where
  uniform : ℚ → ℚ → ℚ
  sqrtA : ℚ → ℚ

/-- Climate bundle returned by `get_climate_data` (main.py:184-213). -/
structure ClimateData where
  annual_precipitation_mm : ℚ
  sunshine_hours : ℚ
  average_temperature : ℚ
  climate_type : String
deriving DecidableEq, Repr

/-- Embedding of `get_climate_data` (main.py:184-213). -/
def get_climate_data (lat _lon : ℚ) : ClimateData :=
  if lat < 37 then ⟨650, 2950, 37/2, "Mediterranean"⟩
  else if lat < 39 then ⟨380, 2650, 56/5, "Continental"⟩
  else if lat < 41 then ⟨850, 1950, 14, "Black Sea"⟩
  else ⟨450, 2450, 17/2, "Severe Continental"⟩

/-- Soil bundle returned by `estimate_soil_quality` (main.py:216-245). -/
structure SoilData where
  soil_type : String
  soil_ph : ℚ
  organic_matter : ℚ
  productivity : String
deriving DecidableEq, Repr

/-- Embedding of `estimate_soil_quality` (main.py:216-245). -/
def estimate_soil_quality (_lat _lon elevation : ℚ) : SoilData :=
  if elevation < 200 then ⟨"Loamy", 34/5, 23/10, "high"⟩
  else if elevation < 500 then ⟨"Clay-Loamy", 71/10, 9/5, "medium-high"⟩
  else if elevation < 1000 then ⟨"Loamy-Sandy", 13/2, 6/5, "medium"⟩
  else ⟨"Stony-Sandy", 29/5, 7/10, "low"⟩

/-- Embedding of `quick_elevation_estimate` (main.py:323-331). -/
def quick_elevation_estimate (smp : Samplers) (lat _lon : ℚ) : ℚ :=
  if lat < 37 then smp.uniform 50 300
  else if lat < 39 then smp.uniform 800 1200
  else if lat < 41 then smp.uniform 200 800
  else smp.uniform 1000 1800

/-- Embedding of `quick_slope_estimate` (main.py:334-342). -/
def quick_slope_estimate (smp : Samplers) (elevation _lat _lon : ℚ) : ℚ :=
  if elevation < 200 then smp.uniform 1 3
  else if elevation < 500 then smp.uniform 2 6
  else if elevation < 1000 then smp.uniform 5 10
  else smp.uniform 8 20

/-- Embedding of `calculate_realistic_urban_distance` (main.py:345-348): minimum planar
distance to four fixed cities, in meters, jittered by `uniform(0.8, 1.2)`.
The per-city `np.sqrt` is the `sqrtA` oracle. -/
def calculate_realistic_urban_distance (smp : Samplers) (lat lon : ℚ) : ℚ :=
  let d1 := smp.sqrtA ((lat - 399/10) ^ 2 + (lon - 164/5) ^ 2) * 111
  let d2 := smp.sqrtA ((lat - 41) ^ 2 + (lon - 289/10) ^ 2) * 111
  let d3 := smp.sqrtA ((lat - 192/5) ^ 2 + (lon - 271/10) ^ 2) * 111
  let d4 := smp.sqrtA ((lat - 369/10) ^ 2 + (lon - 353/10) ^ 2) * 111
  min d1 (min d2 (min d3 d4)) * 1000 * smp.uniform (4/5) (6/5)

/-! ## Per-coordinate analysis (`analyze_coordinate_with_real_water`, main.py:362-411) -/

/-- The `original_data` dict of a submitted coordinate; the code reads
`get` of the key `type` (default `agriculture`), `name` (default the empty
string) and `source` (default `OSM`).
`{}` is `⟨none, none, none⟩`. -/
structure OrigData where
  typ : Option String := none
  nam : Option String := none
  src : Option String := none

/-- Python `round(q)` to an integer (ties modelled half-up; no claim is
evaluated at a tie). -/
def roundInt (q : ℚ) : ℤ := round q

/-- Python `round(q, 1)` (same tie caveat as `roundInt`). -/
def roundTo1 (q : ℚ) : ℚ := (round (q * 10) : ℤ) / 10

/-- Python `round(q, 2)` (same tie caveat as `roundInt`). -/
def roundTo2 (q : ℚ) : ℚ := (round (q * 100) : ℤ) / 100

/-- The `enhanced_row` dict built by `analyze_coordinate_with_real_water`
(main.py:384-402), minus the presentation-only strings. -/
structure EnhancedRow where
  latitude : ℚ
  longitude : ℚ
  elevation_m : ℤ
  slope_percent : ℚ
  water_distance_km : ℚ
  nearest_water_name : String
  nearest_water_type : String
  urban_distance_km : ℚ
  soil_type : String
  soil_ph : ℚ
  soil_productivity : String
  annual_precipitation_mm : ℚ
  sunshine_hours : ℚ
  climate_type : String
  landcover_type : String
  region_name : String
  data_source : String

/-- The same row after the suitability fields are added (main.py:405-409).
`suitability_reasons` is kept as the list of reason keywords (the code
stores their `", ".join`). -/
structure ScoredRow extends EnhancedRow where
  suitability_score : ℕ
  suitability_reasons : List String
  suitability_category : String

/-- The projection of the enhanced row that the scorer reads. -/
def toScoreRow (r : EnhancedRow) : ScoreRow :=
  ⟨r.water_distance_km, r.slope_percent, (r.elevation_m : ℚ),
   r.soil_productivity, r.annual_precipitation_mm, r.sunshine_hours,
   r.landcover_type⟩

/-- Embedding of `analyze_coordinate_with_real_water` (main.py:362-411).  The guard is the
guard at main.py:366, read with Python precedence: reject when
(not (36 <= lat <= 42)) and (26 <= lon <= 45).  The stored
`water_distance_km` is `round(sqrt(distSqDeg)*111, 1)` via the `sqrtA`
oracle (the code computes the sqrt inside the scan; the embedding defers it
to this single point of use). -/
def analyze_coordinate_with_real_water (smp : Samplers)
    (ws : List WaterFeature) (lat lon : ℚ) (orig : OrigData) :
    Option ScoredRow :=
  if ¬ (36 ≤ lat ∧ lat ≤ 42) ∧ (26 ≤ lon ∧ lon ≤ 45) then none
  else
    let elevation := quick_elevation_estimate smp lat lon
    let slope := quick_slope_estimate smp elevation lat lon
    let nw := calculate_distance_to_nearest_water lat lon ws
    let urban_dist_km := calculate_realistic_urban_distance smp lat lon / 1000
    let climate := get_climate_data lat lon
    let soil := estimate_soil_quality lat lon elevation
    let row : EnhancedRow :=
      { latitude := lat
        longitude := lon
        elevation_m := roundInt elevation
        slope_percent := roundTo1 slope
        water_distance_km := roundTo1 (smp.sqrtA nw.distSqDeg * 111)
        nearest_water_name := nw.name
        nearest_water_type := nw.wtype
        urban_distance_km := roundTo1 urban_dist_km
        soil_type := soil.soil_type
        soil_ph := soil.soil_ph
        soil_productivity := soil.productivity
        annual_precipitation_mm := climate.annual_precipitation_mm
        sunshine_hours := climate.sunshine_hours
        climate_type := climate.climate_type
        landcover_type := orig.typ.getD "agriculture"
        region_name := orig.nam.getD ""
        data_source := orig.src.getD "OSM" }
    let sr := calculate_comprehensive_suitability (toScoreRow row)
    some { row with
           suitability_score := sr.1
           suitability_reasons := sr.2
           suitability_category := categorize_suitability sr.1 }

/-! ## Batch collection loop and endpoint (`comprehensive_real_analysis`, main.py:485-577)

The endpoint submits one task per coordinate to a pool of 6 workers and
consumes completions (`as_completed`) in a nondeterministic order; the
embedding processes the per-coordinate results in the order of the given
coordinate list (any completion order is the run on the correspondingly
permuted list, since each task depends only on its own coordinate).  The
collection loop (main.py:519-529) increments `processed`, appends a result
when it is non-`None` with score `>= 60`, and `break`s as soon as
`len(suitable_areas) >= max_areas`. -/

/-- Worker pool size, `ThreadPoolExecutor(max_workers=6)` (main.py:512). -/
def pool_size : ℕ := 6

/-- The completion-consuming loop of `comprehensive_real_analysis`
(main.py:519-529): state is `(processed, suitable_areas)`. -/
def collectLoop (max_areas : ℕ) :
    List (Option ScoredRow) → ℕ → List ScoredRow → ℕ × List ScoredRow
  | [], processed, acc => (processed, acc)
  | r :: rest, processed, acc =>
    match r with
    | some row =>
        if 60 ≤ row.suitability_score then
          if max_areas ≤ (acc ++ [row]).length then (processed + 1, acc ++ [row])
          else collectLoop max_areas rest (processed + 1) (acc ++ [row])
        else collectLoop max_areas rest (processed + 1) acc
    | none => collectLoop max_areas rest (processed + 1) acc

/-- One formatted entry of `top_areas` (main.py:536-548).  Float-to-string
rendering (`f"{lat:.4f}, {lon:.4f}"` etc.) is presentation only; the model
keeps the rendered values.  The `details` string (joined detail fragments)
is not modelled. -/
structure AreaDetail where
  rank : ℕ
  latitude : ℚ
  longitude : ℚ
  score : ℕ
  category : String
  water_distance_km : ℚ
  nearest_water_name : String
  slope_percent : ℚ
  elevation_m : ℤ
  soil_type : String
  soil_ph : ℚ
  annual_precipitation_mm : ℚ
  sunshine_hours : ℚ

/-- Build the formatted entry for one accepted row at a given rank. -/
def mkAreaDetail (rank : ℕ) (a : ScoredRow) : AreaDetail :=
  { rank := rank
    latitude := a.latitude
    longitude := a.longitude
    score := a.suitability_score
    category := a.suitability_category
    water_distance_km := a.water_distance_km
    nearest_water_name := a.nearest_water_name
    slope_percent := a.slope_percent
    elevation_m := a.elevation_m
    soil_type := a.soil_type
    soil_ph := a.soil_ph
    annual_precipitation_mm := a.annual_precipitation_mm
    sunshine_hours := a.sunshine_hours }

/-- The numbering loop `for i, area in enumerate(suitable_areas[:10], 1)`. -/
def formatTop : ℕ → List ScoredRow → List AreaDetail
  | _, [] => []
  | r, a :: rest => mkAreaDetail r a :: formatTop (r + 1) rest

/-- Embedding of `top_areas_formatted` (main.py:534-548): the first 10 accepted rows in
acceptance order, ranked 1, 2, ... by position. -/
def formatTopAreas (suitable_areas : List ScoredRow) : List AreaDetail :=
  formatTop 1 (suitable_areas.take 10)

/-- The `summary` dict (main.py:551-555). -/
structure Summary where
  total_analyzed : ℕ
  productive_areas : ℕ
  success_rate : ℚ
deriving DecidableEq, Repr

/-- The JSON response of the endpoint.  `summary = none` models the early-return
failure dict, which has no `summary` key at all (main.py:494-497).
`processing_time`, `analysis_type` and `visual_output` are presentation
only and not modelled. -/
structure EndpointResponse where
  success : Bool
  message : String
  summary : Option Summary
  top_areas : List AreaDetail

/-- Embedding of `comprehensive_real_analysis` (main.py:485-577).  `coordinates` stands
for the list returned by `load_coordinates_from_csv`, in completion order
(see the section comment); each coordinate is submitted with
`original_data = {}` (main.py:513). -/
def comprehensive_real_analysis (smp : Samplers) (ws : List WaterFeature)
    (coordinates : List (ℚ × ℚ)) (max_areas sample_size : ℕ) :
    EndpointResponse :=
  if ws.isEmpty then
    { success := false
      message := "Water sources could not be retrieved"
      summary := none
      top_areas := [] }
  else
    let coords := coordinates.take sample_size
    let results := coords.map fun c =>
      analyze_coordinate_with_real_water smp ws c.1 c.2 {}
    let pr := collectLoop max_areas results 0 []
    let processed := pr.1
    let suitable_areas := pr.2
    { success := true
      message := "Comprehensive real-data analysis completed"
      summary := some
        { total_analyzed := processed
          productive_areas := suitable_areas.length
          success_rate :=
            if 0 < processed then
              roundTo2 ((suitable_areas.length : ℚ) / (processed : ℚ) * 100)
            else 0 }
      top_areas := formatTopAreas suitable_areas }

/-! ## Cache file round-trip (`get_all_water_sources_from_osm`, main.py:69-163)

The loader serialises the feature list to a JSON file (`json.dump`,
main.py:148-153) and, on a later call, parses it back and returns it
verbatim (`json.load`, main.py:75-82).  The JSON layer is modelled by an
explicit JSON value type with exact rational numbers; each feature dict
becomes an object with the five keys written at main.py:140-146, and
reading looks the keys up as every consumer of the parsed dicts does. -/

/-- JSON values as relevant to the cache file (numbers kept exact). -/
inductive JVal where
  | num : ℚ → JVal
  | str : String → JVal
  | arr : List JVal → JVal
  | obj : List (String × JVal) → JVal

/-- Serialisation of one feature dict (main.py:140-146) as written by
`json.dump`. -/
def encodeFeature (w : WaterFeature) : JVal :=
  JVal.obj [("lat", JVal.num w.lat), ("lon", JVal.num w.lon),
            ("name", JVal.str w.name), ("type", JVal.str w.type),
            ("source", JVal.str w.source)]

/-- The cache file contents: a JSON array of feature objects. -/
def encodeCache (ws : List WaterFeature) : JVal :=
  JVal.arr (ws.map encodeFeature)

/-- Reading one parsed feature dict back (field access as performed by the
consumers of `json.load`). -/
def decodeFeature : JVal → Option WaterFeature
  | JVal.obj fields =>
      match fields.lookup "lat", fields.lookup "lon", fields.lookup "name",
            fields.lookup "type", fields.lookup "source" with
      | some (JVal.num la), some (JVal.num lo), some (JVal.str n),
        some (JVal.str t), some (JVal.str s) => some ⟨la, lo, n, t, s⟩
      | _, _, _, _, _ => none
  | _ => none

/-- Reading each element of a parsed array back. -/
def decodeFeatures : List JVal → Option (List WaterFeature)
  | [] => some []
  | j :: rest =>
      match decodeFeature j, decodeFeatures rest with
      | some w, some ws => some (w :: ws)
      | _, _ => none

/-- Reading the cache file back (main.py:75-82). -/
def decodeCache : JVal → Option (List WaterFeature)
  | JVal.arr js => decodeFeatures js
  | _ => none

/-! ## Per-criterion case lemmas for the scorer -/

lemma waterPart_cases (d : ℚ) :
    (waterPart d).1 = 0 ∨ (waterPart d).1 = 25 ∨ (waterPart d).1 = 18 := by
  unfold waterPart; split_ifs <;> simp

lemma slopePart_cases (s : ℚ) :
    (slopePart s).1 = 0 ∨ (slopePart s).1 = 20 ∨ (slopePart s).1 = 15 := by
  unfold slopePart; split_ifs <;> simp

lemma elevationPart_cases (e : ℚ) :
    (elevationPart e).1 = 0 ∨ (elevationPart e).1 = 15 ∨ (elevationPart e).1 = 10 := by
  unfold elevationPart; split_ifs <;> simp

lemma soilPart_cases (q : String) :
    (soilPart q).1 = 0 ∨ (soilPart q).1 = 10 ∨ (soilPart q).1 = 7 := by
  unfold soilPart; split_ifs <;> simp

lemma precipitationPart_cases (p : ℚ) :
    (precipitationPart p).1 = 0 ∨ (precipitationPart p).1 = 8 := by
  unfold precipitationPart; split_ifs <;> simp

lemma sunshinePart_cases (s : ℚ) :
    (sunshinePart s).1 = 0 ∨ (sunshinePart s).1 = 7 := by
  unfold sunshinePart; split_ifs <;> simp

lemma landPart_cases (lc : String) :
    (landPart lc).1 = 0 ∨ (landPart lc).1 = 8 := by
  simp only [landPart]; split_ifs <;> simp

lemma suitability_fst (row : ScoreRow) :
    (calculate_comprehensive_suitability row).1 =
      (waterPart row.water_distance_km).1 + (slopePart row.slope_percent).1 +
      (elevationPart row.elevation_m).1 + (soilPart row.soil_productivity).1 +
      (precipitationPart row.annual_precipitation_mm).1 +
      (sunshinePart row.sunshine_hours).1 + (landPart row.landcover_type).1 := rfl

/-- Claim C1: every score is the sum of at most one tier per criterion
(water 25|18, slope 20|15, elevation 15|10, soil 10|7, precipitation 8,
sunshine 7, landcover 8), hence a subset sum lying in 0..93. -/
theorem claim_C1 (row : ScoreRow) :
    ∃ w s e so p su l : ℕ,
      (calculate_comprehensive_suitability row).1 = w + s + e + so + p + su + l ∧
      (w = 0 ∨ w = 25 ∨ w = 18) ∧ (s = 0 ∨ s = 20 ∨ s = 15) ∧
      (e = 0 ∨ e = 15 ∨ e = 10) ∧ (so = 0 ∨ so = 10 ∨ so = 7) ∧
      (p = 0 ∨ p = 8) ∧ (su = 0 ∨ su = 7) ∧ (l = 0 ∨ l = 8) ∧
      (calculate_comprehensive_suitability row).1 ≤ 93 := by
  have hw := waterPart_cases row.water_distance_km
  have hs := slopePart_cases row.slope_percent
  have he := elevationPart_cases row.elevation_m
  have hso := soilPart_cases row.soil_productivity
  have hp := precipitationPart_cases row.annual_precipitation_mm
  have hsu := sunshinePart_cases row.sunshine_hours
  have hl := landPart_cases row.landcover_type
  refine ⟨_, _, _, _, _, _, _, suitability_fst row, hw, hs, he, hso, hp, hsu, hl, ?_⟩
  rw [suitability_fst row]
  omega

/-- Claim C2: `categorize_suitability` matches the fixed thresholds exactly,
is monotone in the score, and maps 80, 79, 59 as stated. -/
theorem claim_C2 :
    (∀ s : ℕ, categorize_suitability s = "HIGHLY PRODUCTIVE" ↔ 80 ≤ s) ∧
    (∀ s : ℕ, categorize_suitability s = "PRODUCTIVE" ↔ 70 ≤ s ∧ s < 80) ∧
    (∀ s : ℕ, categorize_suitability s = "MODERATELY PRODUCTIVE" ↔ 60 ≤ s ∧ s < 70) ∧
    (∀ s : ℕ, categorize_suitability s = "LOW PRODUCTIVITY" ↔ s < 60) ∧
    (∀ s t : ℕ, s ≤ t →
      categoryRank (categorize_suitability s) ≤ categoryRank (categorize_suitability t)) ∧
    categorize_suitability 80 = "HIGHLY PRODUCTIVE" ∧
    categorize_suitability 79 = "PRODUCTIVE" ∧
    categorize_suitability 59 = "LOW PRODUCTIVITY" := by
  refine ⟨?_, ?_, ?_, ?_, ?_, by decide, by decide, by decide⟩
  · intro s; unfold categorize_suitability
    split_ifs with h1 h2 h3 <;> simp_all
  · intro s; unfold categorize_suitability
    split_ifs with h1 h2 h3 <;> simp_all
  · intro s; unfold categorize_suitability
    split_ifs with h1 h2 h3 <;> simp_all
    all_goals omega
  · intro s; unfold categorize_suitability
    split_ifs with h1 h2 h3 <;> simp_all
    all_goals omega
  · intro s t hst; unfold categorize_suitability
    split_ifs <;> simp_all [categoryRank]
    all_goals omega

/-- Witness for claim C2 at concrete scores (monotonicity applied at 59 ≤ 80). -/
theorem claim_C2_witness :
    categoryRank (categorize_suitability 59) ≤ categoryRank (categorize_suitability 80) :=
  claim_C2.2.2.2.2.1 59 80 (by omega)

/-- Claim C9: the concrete row (water 3km, slope 2%, elevation 100m, soil
"high", precipitation 600mm, sunshine 2000h, landcover "Farmland") scores
93 = 25+20+15+10+8+7+8 and is categorized "HIGHLY PRODUCTIVE". -/
theorem claim_C9 :
    (calculate_comprehensive_suitability
      ⟨3, 2, 100, "high", 600, 2000, "Farmland"⟩).1 = 93 ∧
    93 = 25 + 20 + 15 + 10 + 8 + 7 + 8 ∧
    categorize_suitability 93 = "HIGHLY PRODUCTIVE" := by
  refine ⟨by decide, by decide, by decide⟩

/-- Claim C4: `analyze_coordinate_with_real_water` rejects a coordinate
(returns `None`) iff the latitude is outside [36, 42] AND the longitude is
inside [26, 45]; hence a point whose longitude is outside [26, 45] is never
rejected. -/
theorem claim_C4 (smp : Samplers) (ws : List WaterFeature) (lat lon : ℚ)
    (orig : OrigData) :
    (analyze_coordinate_with_real_water smp ws lat lon orig = none ↔
      ¬ (36 ≤ lat ∧ lat ≤ 42) ∧ (26 ≤ lon ∧ lon ≤ 45)) ∧
    (¬ (26 ≤ lon ∧ lon ≤ 45) →
      analyze_coordinate_with_real_water smp ws lat lon orig ≠ none) := by
  constructor
  · unfold analyze_coordinate_with_real_water
    split_ifs with h
    · simp [h]
    · exact iff_of_false (by simp) h
  · intro hlon heq
    unfold analyze_coordinate_with_real_water at heq
    split_ifs at heq with h
    · exact hlon h.2

/-- Witness for claim C4: the point (0, 0), far outside the Turkey bounding
box but with longitude outside [26, 45], is not rejected. -/
theorem claim_C4_witness :
    analyze_coordinate_with_real_water ⟨fun lo _ => lo, fun _ => 0⟩ [] 0 0 {} ≠ none :=
  (claim_C4 ⟨fun lo _ => lo, fun _ => 0⟩ [] 0 0 {}).2 (by norm_num)

/-! ## Landcover lemmas for the endpoint invariant (claim C10) -/

lemma landPart_agriculture : landPart "agriculture" = (0, []) := by decide

lemma waterPart_reason (d : ℚ) :
    "existing agricultural land" ∉ (waterPart d).2 := by
  unfold waterPart; split_ifs <;> decide

lemma slopePart_reason (s : ℚ) :
    "existing agricultural land" ∉ (slopePart s).2 := by
  unfold slopePart; split_ifs <;> decide

lemma elevationPart_reason (e : ℚ) :
    "existing agricultural land" ∉ (elevationPart e).2 := by
  unfold elevationPart; split_ifs <;> decide

lemma soilPart_reason (q : String) :
    "existing agricultural land" ∉ (soilPart q).2 := by
  unfold soilPart; split_ifs <;> decide

lemma precipitationPart_reason (p : ℚ) :
    "existing agricultural land" ∉ (precipitationPart p).2 := by
  unfold precipitationPart; split_ifs <;> decide

lemma sunshinePart_reason (s : ℚ) :
    "existing agricultural land" ∉ (sunshinePart s).2 := by
  unfold sunshinePart; split_ifs <;> decide

lemma suitability_snd (row : ScoreRow) :
    (calculate_comprehensive_suitability row).2 =
      (waterPart row.water_distance_km).2 ++ (slopePart row.slope_percent).2 ++
      (elevationPart row.elevation_m).2 ++ (soilPart row.soil_productivity).2 ++
      (precipitationPart row.annual_precipitation_mm).2 ++
      (sunshinePart row.sunshine_hours).2 ++ (landPart row.landcover_type).2 := rfl

/-- If the landcover label is the default `"agriculture"`, the bonus is not
awarded: the score stays at most 85 and the agricultural-land reason is
absent. -/
lemma score_of_agriculture (row : ScoreRow) (h : row.landcover_type = "agriculture") :
    (calculate_comprehensive_suitability row).1 ≤ 85 ∧
    "existing agricultural land" ∉ (calculate_comprehensive_suitability row).2 := by
  have hl : landPart row.landcover_type = (0, []) := by
    rw [h]; exact landPart_agriculture
  constructor
  · have hw := waterPart_cases row.water_distance_km
    have hs := slopePart_cases row.slope_percent
    have he := elevationPart_cases row.elevation_m
    have hso := soilPart_cases row.soil_productivity
    have hp := precipitationPart_cases row.annual_precipitation_mm
    have hsu := sunshinePart_cases row.sunshine_hours
    rw [suitability_fst row, hl]
    omega
  · rw [suitability_snd row, hl]
    simp only [List.append_nil, List.mem_append]
    push_neg
    exact ⟨⟨⟨⟨⟨waterPart_reason _, slopePart_reason _⟩, elevationPart_reason _⟩,
      soilPart_reason _⟩, precipitationPart_reason _⟩, sunshinePart_reason _⟩

/-- Any row produced by `analyze_coordinate_with_real_water` with the empty
`original_data` dict has the default landcover `"agriculture"`, scores at
most 85, and never carries the `"existing agricultural land"` reason. -/
lemma analyze_emptyOrig (smp : Samplers) (ws : List WaterFeature) (lat lon : ℚ)
    (r : ScoredRow)
    (h : analyze_coordinate_with_real_water smp ws lat lon {} = some r) :
    r.landcover_type = "agriculture" ∧ r.suitability_score ≤ 85 ∧
    "existing agricultural land" ∉ r.suitability_reasons := by
  unfold analyze_coordinate_with_real_water at h
  split_ifs at h
  injection h with h
  subst h
  refine ⟨rfl, ?_, ?_⟩
  · exact (score_of_agriculture _ rfl).1
  · exact (score_of_agriculture _ rfl).2

/-! ## Correctness of the nearest-water scan (claim C3) -/

lemma sqDistDeg_nonneg (lat lon : ℚ) (w : WaterFeature) : 0 ≤ sqDistDeg lat lon w := by
  unfold sqDistDeg; positivity

/-- Comparing the distances `sqrt(d)*111` of the code agrees with comparing the
squared degree distances (non-strict version). -/
lemma sqrt111_le_of_le {a b : ℚ} (hab : a ≤ b) :
    Real.sqrt (a : ℝ) * 111 ≤ Real.sqrt (b : ℝ) * 111 :=
  mul_le_mul_of_nonneg_right (Real.sqrt_le_sqrt (by exact_mod_cast hab)) (by norm_num)

/-- Comparing the distances `sqrt(d)*111` of the code agrees with comparing the
squared degree distances (strict version). -/
lemma sqrt111_lt_of_lt {a b : ℚ} (ha : 0 ≤ a) (hab : a < b) :
    Real.sqrt (a : ℝ) * 111 < Real.sqrt (b : ℝ) * 111 :=
  mul_lt_mul_of_pos_right
    (Real.sqrt_lt_sqrt (by exact_mod_cast ha) (by exact_mod_cast hab)) (by norm_num)

/-- Invariant of the scan loop: starting from a current minimum `m` held by
`b`, the loop either keeps `b` (and every remaining feature is at squared
distance at least `m`) or returns the first remaining feature realising a
squared distance below `m` that is minimal among the remaining features. -/
lemma nearestGo_spec (lat lon : ℚ) (l : List WaterFeature) :
    ∀ (m : ℚ) (b : NearestWater),
      (nearestGo lat lon l (some m) b = b ∧ ∀ w ∈ l, m ≤ sqDistDeg lat lon w) ∨
      (∃ i, ∃ hi : i < l.length,
        nearestGo lat lon l (some m) b =
          ⟨(l.get ⟨i, hi⟩).name, (l.get ⟨i, hi⟩).type,
           sqDistDeg lat lon (l.get ⟨i, hi⟩)⟩ ∧
        sqDistDeg lat lon (l.get ⟨i, hi⟩) < m ∧
        (∀ w ∈ l, sqDistDeg lat lon (l.get ⟨i, hi⟩) ≤ sqDistDeg lat lon w) ∧
        (∀ w ∈ l.take i, sqDistDeg lat lon (l.get ⟨i, hi⟩) < sqDistDeg lat lon w)) := by
  induction l with
  | nil =>
      intro m b
      left
      exact ⟨rfl, by simp⟩
  | cons w rest ih =>
      intro m b
      by_cases hw : sqDistDeg lat lon w < m
      · have hstep : nearestGo lat lon (w :: rest) (some m) b =
            nearestGo lat lon rest (some (sqDistDeg lat lon w))
              ⟨w.name, w.type, sqDistDeg lat lon w⟩ := by
          simp [nearestGo, hw]
        rcases ih (sqDistDeg lat lon w) ⟨w.name, w.type, sqDistDeg lat lon w⟩ with
          ⟨heq, hall⟩ | ⟨i, hi, heq, hlt, hmin, hfirst⟩
        · right
          refine ⟨0, by simp, ?_, ?_, ?_, ?_⟩
          · rw [hstep, heq]; simp
          · exact hw
          · intro w2 hw2
            rcases List.mem_cons.mp hw2 with h2 | h2
            · subst h2; exact le_refl _
            · exact hall w2 h2
          · intro w2 hw2
            simp at hw2
        · right
          refine ⟨i + 1, by simpa using Nat.succ_lt_succ hi, ?_, ?_, ?_, ?_⟩
          · rw [hstep, heq]; rfl
          · exact lt_trans hlt hw
          · intro w2 hw2
            rcases List.mem_cons.mp hw2 with h2 | h2
            · subst h2; exact le_of_lt hlt
            · exact hmin w2 h2
          · intro w2 hw2
            rcases List.mem_cons.mp (by simpa [List.take] using hw2) with h2 | h2
            · subst h2; exact hlt
            · exact hfirst w2 h2
      · have hstep : nearestGo lat lon (w :: rest) (some m) b =
            nearestGo lat lon rest (some m) b := by
          simp [nearestGo, hw]
        rcases ih m b with ⟨heq, hall⟩ | ⟨i, hi, heq, hlt, hmin, hfirst⟩
        · left
          refine ⟨by rw [hstep, heq], ?_⟩
          intro w2 hw2
          rcases List.mem_cons.mp hw2 with h2 | h2
          · subst h2; exact le_of_not_lt hw
          · exact hall w2 h2
        · right
          refine ⟨i + 1, by simpa using Nat.succ_lt_succ hi, ?_, ?_, ?_, ?_⟩
          · rw [hstep, heq]; rfl
          · exact hlt
          · intro w2 hw2
            rcases List.mem_cons.mp hw2 with h2 | h2
            · subst h2; exact le_of_lt (lt_of_lt_of_le hlt (le_of_not_lt hw))
            · exact hmin w2 h2
          · intro w2 hw2
            rcases List.mem_cons.mp (by simpa [List.take] using hw2) with h2 | h2
            · subst h2; exact lt_of_lt_of_le hlt (le_of_not_lt hw)
            · exact hfirst w2 h2

/-- Claim C3: on an empty collection the scan returns the placeholder
(name "unknown", type "unknown", distance 0); on a non-empty collection it
returns the name, type and distance of the feature minimising
`sqrt((lat-f.lat)^2+(lon-f.lon)^2)*111`, the first such feature on ties
(every strictly earlier feature is strictly farther), and the returned
distance (represented by its square `distSqDeg`) is that minimum. -/
theorem claim_C3 (lat lon : ℚ) (ws : List WaterFeature) (hne : ws ≠ []) :
    calculate_distance_to_nearest_water lat lon [] = ⟨"unknown", "unknown", 0⟩ ∧
    ∃ i, ∃ hi : i < ws.length,
      calculate_distance_to_nearest_water lat lon ws =
        ⟨(ws.get ⟨i, hi⟩).name, (ws.get ⟨i, hi⟩).type,
         sqDistDeg lat lon (ws.get ⟨i, hi⟩)⟩ ∧
      (∀ w ∈ ws, Real.sqrt (sqDistDeg lat lon (ws.get ⟨i, hi⟩) : ℝ) * 111 ≤
        Real.sqrt (sqDistDeg lat lon w : ℝ) * 111) ∧
      ∀ w ∈ ws.take i, Real.sqrt (sqDistDeg lat lon (ws.get ⟨i, hi⟩) : ℝ) * 111 <
        Real.sqrt (sqDistDeg lat lon w : ℝ) * 111 := by
  refine ⟨rfl, ?_⟩
  match ws, hne with
  | w :: rest, _ =>
    have hstep : calculate_distance_to_nearest_water lat lon (w :: rest) =
        nearestGo lat lon rest (some (sqDistDeg lat lon w))
          ⟨w.name, w.type, sqDistDeg lat lon w⟩ := rfl
    rcases nearestGo_spec lat lon rest (sqDistDeg lat lon w)
        ⟨w.name, w.type, sqDistDeg lat lon w⟩ with
      ⟨heq, hall⟩ | ⟨i, hi, heq, hlt, hmin, hfirst⟩
    · refine ⟨0, by simp, ?_, ?_, ?_⟩
      · rw [hstep, heq]; simp
      · intro w2 hw2
        rcases List.mem_cons.mp hw2 with h2 | h2
        · subst h2; exact le_refl _
        · exact sqrt111_le_of_le (hall w2 h2)
      · intro w2 hw2
        simp at hw2
    · refine ⟨i + 1, by simpa using Nat.succ_lt_succ hi, ?_, ?_, ?_⟩
      · rw [hstep, heq]; rfl
      · intro w2 hw2
        rcases List.mem_cons.mp hw2 with h2 | h2
        · subst h2; exact sqrt111_le_of_le (le_of_lt hlt)
        · exact sqrt111_le_of_le (hmin w2 h2)
      · intro w2 hw2
        rcases (by simpa using hw2 : w2 = w ∨ w2 ∈ rest.take i) with h2 | h2
        · subst h2; exact sqrt111_lt_of_lt (sqDistDeg_nonneg _ _ _) hlt
        · exact sqrt111_lt_of_lt (sqDistDeg_nonneg _ _ _) (hfirst w2 h2)

/-- A concrete feature used by the closed witnesses below. -/
def testFeature : WaterFeature := ⟨39, 32, "Kizilirmak", "river", "OpenStreetMap"⟩

/-- Witness for claim C3 on the one-feature collection. -/
theorem claim_C3_witness :
    ([testFeature] : List WaterFeature) ≠ [] ∧
    (calculate_distance_to_nearest_water 40 33 [] = ⟨"unknown", "unknown", 0⟩ ∧
     ∃ i, ∃ hi : i < ([testFeature] : List WaterFeature).length,
       calculate_distance_to_nearest_water 40 33 [testFeature] =
         ⟨(([testFeature] : List WaterFeature).get ⟨i, hi⟩).name,
          (([testFeature] : List WaterFeature).get ⟨i, hi⟩).type,
          sqDistDeg 40 33 (([testFeature] : List WaterFeature).get ⟨i, hi⟩)⟩ ∧
       (∀ w ∈ ([testFeature] : List WaterFeature),
         Real.sqrt (sqDistDeg 40 33 (([testFeature] : List WaterFeature).get ⟨i, hi⟩) : ℝ) * 111 ≤
           Real.sqrt (sqDistDeg 40 33 w : ℝ) * 111) ∧
       ∀ w ∈ ([testFeature] : List WaterFeature).take i,
         Real.sqrt (sqDistDeg 40 33 (([testFeature] : List WaterFeature).get ⟨i, hi⟩) : ℝ) * 111 <
           Real.sqrt (sqDistDeg 40 33 w : ℝ) * 111) :=
  ⟨by simp, claim_C3 40 33 [testFeature] (by simp)⟩

/-! ## The collection loop: bounds and membership (claims C5, C6, C10) -/

/-- Every row in the output of the collection loop was already accepted or is an
input result with score at least 60. -/
lemma collectLoop_mem_spec (max_areas : ℕ) :
    ∀ (l : List (Option ScoredRow)) (p : ℕ) (acc : List ScoredRow) (r : ScoredRow),
      r ∈ (collectLoop max_areas l p acc).2 →
      r ∈ acc ∨ (some r ∈ l ∧ 60 ≤ r.suitability_score) := by
  intro l
  induction l with
  | nil =>
      intro p acc r h
      exact Or.inl h
  | cons head rest ih =>
      intro p acc r h
      cases head with
      | none =>
          rcases ih (p + 1) acc r h with h2 | ⟨h2, h3⟩
          · exact Or.inl h2
          · exact Or.inr ⟨List.mem_cons_of_mem _ h2, h3⟩
      | some row =>
          simp only [collectLoop] at h
          split_ifs at h with h60 hful
          · rcases List.mem_append.mp h with h2 | h2
            · exact Or.inl h2
            · have : r = row := by simpa using h2
              subst this
              exact Or.inr ⟨List.mem_cons_self _ _, h60⟩
          · rcases ih (p + 1) (acc ++ [row]) r h with h2 | ⟨h2, h3⟩
            · rcases List.mem_append.mp h2 with h3 | h3
              · exact Or.inl h3
              · have : r = row := by simpa using h3
                subst this
                exact Or.inr ⟨List.mem_cons_self _ _, h60⟩
            · exact Or.inr ⟨List.mem_cons_of_mem _ h2, h3⟩
          · rcases ih (p + 1) acc r h with h2 | ⟨h2, h3⟩
            · exact Or.inl h2
            · exact Or.inr ⟨List.mem_cons_of_mem _ h2, h3⟩

/-- The output of the collection loop never holds more than
`max max_areas (acc.length + 1)` rows: the loop breaks as soon as an append
reaches `max_areas`. -/
lemma collectLoop_len (max_areas : ℕ) :
    ∀ (l : List (Option ScoredRow)) (p : ℕ) (acc : List ScoredRow),
      (collectLoop max_areas l p acc).2.length ≤ max max_areas (acc.length + 1) := by
  intro l
  induction l with
  | nil =>
      intro p acc
      have : (collectLoop max_areas [] p acc).2 = acc := rfl
      rw [this]
      omega
  | cons head rest ih =>
      intro p acc
      cases head with
      | none => exact le_trans (ih (p + 1) acc) (le_refl _)
      | some row =>
          simp only [collectLoop]
          split_ifs with h60 hful
          · simp only [List.length_append, List.length_singleton]
            omega
          · have hrec := ih (p + 1) (acc ++ [row])
            simp only [List.length_append, List.length_singleton] at hrec hful ⊢
            omega
          · exact ih (p + 1) acc

/-- Claim C5: the accepted-results list (reported as
`summary.productive_areas`) never exceeds `max_areas + pool_size - 1`
entries with `pool_size = 6`, and every accepted row has score at least 60. -/
theorem claim_C5 (max_areas : ℕ) (results : List (Option ScoredRow)) :
    (collectLoop max_areas results 0 []).2.length ≤ max_areas + pool_size - 1 ∧
    (∀ r ∈ (collectLoop max_areas results 0 []).2, 60 ≤ r.suitability_score) ∧
    ∀ (smp : Samplers) (ws : List WaterFeature) (coords : List (ℚ × ℚ))
      (sample_size : ℕ) (smry : Summary),
      (comprehensive_real_analysis smp ws coords max_areas sample_size).summary =
        some smry →
      smry.productive_areas ≤ max_areas + pool_size - 1 := by
  have hlen : ∀ (l : List (Option ScoredRow)),
      (collectLoop max_areas l 0 []).2.length ≤ max_areas + pool_size - 1 := by
    intro l
    have := collectLoop_len max_areas l 0 []
    simp only [List.length_nil, pool_size] at this ⊢
    omega
  refine ⟨hlen results, ?_, ?_⟩
  · intro r hr
    rcases collectLoop_mem_spec max_areas results 0 [] r hr with h | ⟨-, h⟩
    · simp at h
    · exact h
  · intro smp ws coords sample_size smry hsmry
    cases ws with
    | nil => simp [comprehensive_real_analysis] at hsmry
    | cons a l =>
        simp only [comprehensive_real_analysis, List.isEmpty_cons, Bool.false_eq_true,
          if_false, Option.some.injEq] at hsmry
        subst hsmry
        exact hlen _

/-- A fixed oracle (every uniform draw returns its lower bound, `sqrtA` is
identically 0), used only to instantiate closed witnesses. -/
def constSamplers : Samplers := ⟨fun lo _ => lo, fun _ => 0⟩

/-- Witness for claim C5 at a concrete endpoint run. -/
theorem claim_C5_witness :
    (comprehensive_real_analysis constSamplers [testFeature] [] 3 10).summary =
      some ⟨0, 0, 0⟩ ∧
    (3 : ℕ) + pool_size - 1 = 8 ∧
    ∀ smry : Summary,
      (comprehensive_real_analysis constSamplers [testFeature] [] 3 10).summary =
        some smry → smry.productive_areas ≤ 3 + pool_size - 1 := by
  refine ⟨rfl, rfl, ?_⟩
  intro smry h
  exact (claim_C5 3 []).2.2 constSamplers [testFeature] [] 10 smry h

/-- Claim C6 (amended): with a non-empty catalog, an empty coordinate list
produces the success response with a well-formed summary
`total_analyzed = 0`, `productive_areas = 0`, `success_rate = 0` (the
division is guarded when `processed = 0`); an empty catalog instead
produces the structured failure response, which has no summary at all. -/
theorem claim_C6_amended (smp : Samplers) (ws : List WaterFeature)
    (hws : ws ≠ []) (max_areas sample_size : ℕ) (coords : List (ℚ × ℚ)) :
    (comprehensive_real_analysis smp ws [] max_areas sample_size).success = true ∧
    (comprehensive_real_analysis smp ws [] max_areas sample_size).summary =
      some ⟨0, 0, 0⟩ ∧
    comprehensive_real_analysis smp [] coords max_areas sample_size =
      ⟨false, "Water sources could not be retrieved", none, []⟩ := by
  have hempty : ws.isEmpty = false := by
    cases ws with
    | nil => exact absurd rfl hws
    | cons a l => rfl
  refine ⟨?_, ?_, rfl⟩
  · simp [comprehensive_real_analysis, hempty, collectLoop]
  · simp [comprehensive_real_analysis, hempty, collectLoop, formatTopAreas, formatTop]

/-- Counterexample to claim C6 as stated: with an empty water catalog the
endpoint returns the failure response, whose `summary` is absent (`none`)
rather than a well-formed summary with `total_analyzed = 0`. -/
theorem claim_C6_counterexample :
    (comprehensive_real_analysis constSamplers [] [] 100 5000).summary = none ∧
    (comprehensive_real_analysis constSamplers [] [] 100 5000).success = false :=
  ⟨rfl, rfl⟩

/-- Witness for claim C6 (amended) at a concrete catalog and empty
coordinate list. -/
theorem claim_C6_witness :
    (comprehensive_real_analysis constSamplers [testFeature] [] 7 11).summary =
      some ⟨0, 0, 0⟩ :=
  (claim_C6_amended constSamplers [testFeature] (by simp) 7 11 []).2.1

/-! ## The top-areas slice (claim C7) -/

lemma formatTop_length (l : List ScoredRow) :
    ∀ k : ℕ, (formatTop k l).length = l.length := by
  induction l with
  | nil => intro k; rfl
  | cons a rest ih => intro k; simp [formatTop, ih]

lemma formatTop_get (l : List ScoredRow) :
    ∀ (k i : ℕ) (h1 : i < (formatTop k l).length) (h2 : i < l.length),
      (formatTop k l).get ⟨i, h1⟩ = mkAreaDetail (k + i) (l.get ⟨i, h2⟩) := by
  induction l with
  | nil => intro k i h1 h2; exact absurd h2 (by simp)
  | cons a rest ih =>
      intro k i h1 h2
      cases i with
      | zero => rfl
      | succ n =>
          have h1r : n < (formatTop (k + 1) rest).length := by
            have := h1
            simp only [formatTop, List.length_cons] at this
            omega
          have h2r : n < rest.length := Nat.lt_of_succ_lt_succ h2
          calc (formatTop k (a :: rest)).get ⟨n + 1, h1⟩
              = (formatTop (k + 1) rest).get ⟨n, h1r⟩ := rfl
            _ = mkAreaDetail (k + 1 + n) (rest.get ⟨n, h2r⟩) := ih (k + 1) n h1r h2r
            _ = mkAreaDetail (k + (n + 1)) ((a :: rest).get ⟨n + 1, h2⟩) := by
                rw [show k + 1 + n = k + (n + 1) from by omega]
                rfl

/-- Claim C7: `top_areas` is exactly the first `min 10 n` accepted rows in
acceptance order — entry `i` is the `i`-th accepted row with rank `i + 1` —
with no sorting by score. -/
theorem claim_C7 (suitable_areas : List ScoredRow) :
    (formatTopAreas suitable_areas).length = min 10 suitable_areas.length ∧
    ∀ i : ℕ, ∀ h1 : i < (formatTopAreas suitable_areas).length,
      ∀ h2 : i < suitable_areas.length,
      (formatTopAreas suitable_areas).get ⟨i, h1⟩ =
        mkAreaDetail (i + 1) (suitable_areas.get ⟨i, h2⟩) := by
  constructor
  · simp [formatTopAreas, formatTop_length]
  · intro i h1 h2
    have htake : i < (suitable_areas.take 10).length := by
      have := h1
      simp only [formatTopAreas, formatTop_length, List.length_take] at this
      simpa [List.length_take] using this
    have hmain := formatTop_get (suitable_areas.take 10) 1 i h1 htake
    have hget : (suitable_areas.take 10).get ⟨i, htake⟩ =
        suitable_areas.get ⟨i, h2⟩ := by
      simp only [List.get_eq_getElem, List.getElem_take]
    calc (formatTopAreas suitable_areas).get ⟨i, h1⟩
        = mkAreaDetail (1 + i) ((suitable_areas.take 10).get ⟨i, htake⟩) := hmain
      _ = mkAreaDetail (i + 1) (suitable_areas.get ⟨i, h2⟩) := by
          rw [hget, Nat.add_comm 1 i]

/-! ## Cache round-trip (claim C8) -/

lemma decodeFeature_encodeFeature (w : WaterFeature) :
    decodeFeature (encodeFeature w) = some w := rfl

/-- Claim C8: serialising a feature list to the cache file and parsing it
back yields the identical list, order and all five fields preserved. -/
theorem claim_C8 (ws : List WaterFeature) :
    decodeCache (encodeCache ws) = some ws := by
  unfold decodeCache encodeCache
  induction ws with
  | nil => rfl
  | cons w rest ih =>
      have ih2 : decodeFeatures (List.map encodeFeature rest) = some rest := ih
      simp only [List.map_cons, decodeFeatures, decodeFeature_encodeFeature, ih2]

/-! ## The endpoint never awards the landcover bonus (claim C10) -/

lemma formatTop_mem (l : List ScoredRow) :
    ∀ (k : ℕ) (a : AreaDetail), a ∈ formatTop k l →
      ∃ row ∈ l, ∃ rk, a = mkAreaDetail rk row := by
  induction l with
  | nil => intro k a h; simp [formatTop] at h
  | cons b rest ih =>
      intro k a h
      rcases List.mem_cons.mp (by simpa [formatTop] using h) with h2 | h2
      · exact ⟨b, List.mem_cons_self _ _, k, h2⟩
      · obtain ⟨row, hrow, rk, hark⟩ := ih (k + 1) a h2
        exact ⟨row, List.mem_cons_of_mem _ hrow, rk, hark⟩

/-- Claim C10: every coordinate in the endpoint pipeline is submitted with
`original_data = {}`, so its landcover defaults to `"agriculture"`; no
landcover keyword matches that label, so the 8-point bonus is never
awarded: any analyzed row has score at most 85 and never the
`"existing agricultural land"` reason, and every area the endpoint
returns has score at most 85. -/
theorem claim_C10 :
    (∀ (smp : Samplers) (ws : List WaterFeature) (lat lon : ℚ) (r : ScoredRow),
      analyze_coordinate_with_real_water smp ws lat lon {} = some r →
      r.landcover_type = "agriculture" ∧ r.suitability_score ≤ 85 ∧
      "existing agricultural land" ∉ r.suitability_reasons) ∧
    ∀ (smp : Samplers) (ws : List WaterFeature) (coords : List (ℚ × ℚ))
      (max_areas sample_size : ℕ),
      ∀ a ∈ (comprehensive_real_analysis smp ws coords max_areas sample_size).top_areas,
        a.score ≤ 85 := by
  constructor
  · exact analyze_emptyOrig
  · intro smp ws coords max_areas sample_size a ha
    cases ws with
    | nil => simp [comprehensive_real_analysis] at ha
    | cons f l =>
        simp only [comprehensive_real_analysis, List.isEmpty_cons, Bool.false_eq_true,
          if_false] at ha
        obtain ⟨row, hrow, rk, hark⟩ :=
          formatTop_mem _ 1 a ha
        have hrow2 := List.take_subset 10 _ hrow
        rcases collectLoop_mem_spec max_areas _ 0 [] row hrow2 with h2 | ⟨h2, -⟩
        · simp at h2
        · obtain ⟨c, -, hc⟩ := List.mem_map.mp h2
          have := (analyze_emptyOrig smp (f :: l) c.1 c.2 row hc).2.1
          rw [hark]
          exact this

/-- A concrete accepted row with a low qualifying score (witness data). -/
def testRowLow : ScoredRow :=
  { latitude := 40, longitude := 33, elevation_m := 900, slope_percent := 7,
    water_distance_km := 8, nearest_water_name := "Kizilirmak",
    nearest_water_type := "river", urban_distance_km := 12,
    soil_type := "Clay-Loamy", soil_ph := 71/10, soil_productivity := "medium-high",
    annual_precipitation_mm := 380, sunshine_hours := 2650,
    climate_type := "Continental", landcover_type := "agriculture",
    region_name := "", data_source := "OSM",
    suitability_score := 60, suitability_reasons := ["close to water"],
    suitability_category := "MODERATELY PRODUCTIVE" }

/-- A concrete accepted row with a high score (witness data). -/
def testRowHigh : ScoredRow :=
  { latitude := 37, longitude := 35, elevation_m := 100, slope_percent := 2,
    water_distance_km := 3, nearest_water_name := "Seyhan",
    nearest_water_type := "river", urban_distance_km := 20,
    soil_type := "Loamy", soil_ph := 34/5, soil_productivity := "high",
    annual_precipitation_mm := 650, sunshine_hours := 2000,
    climate_type := "Mediterranean", landcover_type := "agriculture",
    region_name := "", data_source := "OSM",
    suitability_score := 85, suitability_reasons := ["very close to water"],
    suitability_category := "HIGHLY PRODUCTIVE" }

/-- Witness for claim C7: on a two-row accepted list whose first row scores
lower than its second, the formatted slice keeps acceptance order — the
lower-scoring earlier row gets rank 1, the higher-scoring later row rank 2. -/
theorem claim_C7_witness :
    (formatTopAreas [testRowLow, testRowHigh]).get ⟨0, by decide⟩ =
      mkAreaDetail 1 testRowLow ∧
    (formatTopAreas [testRowLow, testRowHigh]).get ⟨1, by decide⟩ =
      mkAreaDetail 2 testRowHigh ∧
    testRowLow.suitability_score < testRowHigh.suitability_score := by
  refine ⟨?_, ?_, by decide⟩
  · exact (claim_C7 [testRowLow, testRowHigh]).2 0 (by decide) (by decide)
  · exact (claim_C7 [testRowLow, testRowHigh]).2 1 (by decide) (by decide)

/-- Witness for claim C10 at a concrete coordinate inside the accepted
region with a one-feature catalog. -/
theorem claim_C10_witness :
    ∃ r : ScoredRow,
      analyze_coordinate_with_real_water constSamplers [testFeature] 40 33 {} =
        some r ∧
      r.landcover_type = "agriculture" ∧ r.suitability_score ≤ 85 ∧
      "existing agricultural land" ∉ r.suitability_reasons := by
  obtain ⟨r, hr⟩ : ∃ r, analyze_coordinate_with_real_water constSamplers
      [testFeature] 40 33 {} = some r := ⟨_, rfl⟩
  exact ⟨r, hr, claim_C10.1 constSamplers [testFeature] 40 33 r hr⟩
